import Mathlib

/-!
Verification of the bmctl SSH SOCKS5 tunnel and response-patching HTTP
transport, shallowly embedded from the Go sources (pkg/ssh/proxy.go and the
bmc package).  Effectful steps (port allocation, pipe creation, process
start, readiness probing, dialer construction) are modelled by an
environment record that fixes the outcome of each step; the functions then
mirror the Go control flow over those outcomes, and the observable side
effects (was the close handle invoked, is the subprocess still running)
are reported in the result.
-/

set_option autoImplicit false

namespace Bmctl

namespace SSH

/-- SSH connection options, from pkg/ssh/proxy.go (struct Options). -/
structure Options where
  serverAliveInterval : Int
  serverAliveCountMax : Int
deriving DecidableEq, Repr

/-- Default SSH connection settings (constants in pkg/ssh/proxy.go). -/
def defaultServerAliveInterval : Int := 30

/-- Default SSH connection settings (constants in pkg/ssh/proxy.go). -/
def defaultServerAliveCountMax : Int := 3

/-- DefaultOptions returns default SSH connection options (pkg/ssh/proxy.go). -/
def DefaultOptions : Options :=
  { serverAliveInterval := defaultServerAliveInterval
  , serverAliveCountMax := defaultServerAliveCountMax }

/-- A launched command, mirroring the fields of exec.Cmd that the code and
its tests observe: the program name and the argument vector.  Go's
exec.Command(name, arg...) sets Args to name followed by the arguments. -/
structure SSHCommand where
  name : String
  args : List String
deriving DecidableEq, Repr

/-- Go exec.CommandContext(ctx, name, arg...) semantics on the observable
fields: Args is the program name followed by the argument list. -/
def execCommand (name : String) (argv : List String) : SSHCommand :=
  { name := name, args := name :: argv }

/-- createSSHCommand from pkg/ssh/proxy.go: builds the ssh invocation for
the SOCKS proxy with the appropriate flags (strconv.Itoa rendered as
decimal integer printing). -/
def createSSHCommand (host : String) (port : Int) (opts : Options) : SSHCommand :=
  execCommand "ssh"
    [ "-N"
    , "-o", "ExitOnForwardFailure=yes"
    , "-o", "ServerAliveInterval=" ++ toString opts.serverAliveInterval
    , "-o", "ServerAliveCountMax=" ++ toString opts.serverAliveCountMax
    , "-D", toString port
    , host ]

/-- Outcomes of the effectful steps inside runSocksProxyWithOptions and
NewProxyDialer (pkg/ssh/proxy.go).  Each field fixes what the
corresponding Go call returns: none means success, some msg the error. -/
structure ProxyEnv where
  /-- findAvailablePort: the allocated port, or the bind failure. -/
  findPortOutcome : Except String Int
  /-- cmd.StdoutPipe error, if any. -/
  stdoutPipeErr : Option String
  /-- cmd.StderrPipe error, if any. -/
  stderrPipeErr : Option String
  /-- cmd.Start error, if any. -/
  startErr : Option String
  /-- backoff.Retry of dial.DialContext against the local proxy address:
  none means a probe connection succeeded, some msg the retry error. -/
  probeErr : Option String
  /-- proxy.SOCKS5 construction error, if any. -/
  socks5Err : Option String
  /-- whether the caller's context was canceled during the call; a
  canceled context kills the subprocess (exec.CommandContext). -/
  ctxCanceled : Bool
deriving Repr

/-- Observable side effects of a call on the tunnel subprocess. -/
structure TunnelState where
  /-- cmd.Start succeeded at some point during the call. -/
  processStarted : Bool
  /-- the ProxyCloser (cancel with ErrGracefulShutdown, then wait on the
  done channel) was invoked before the call returned. -/
  closeInvoked : Bool
  /-- the subprocess is still running when the call returns: it was
  started, the close handle was never invoked, and the context that
  exec.CommandContext would use to kill it was not canceled. -/
  processRunning : Bool
deriving DecidableEq, Repr

/-- A subprocess keeps running after the call iff it was started, the
close operation was never invoked (close blocks until cmd.Wait has
observed termination) and the command context was not canceled. -/
def runningAfter (started closeInvoked ctxCanceled : Bool) : Bool :=
  started && !closeInvoked && !ctxCanceled

/-- Result of runSocksProxyWithOptions: the returned ProxyCloser (modelled
by its presence), the returned error, and whether cmd.Start succeeded. -/
structure RunResult where
  closer : Option Unit
  err : Option String
  processStarted : Bool
deriving DecidableEq, Repr

/-- runSocksProxyWithOptions from pkg/ssh/proxy.go: obtains stdout and
stderr pipes, starts the ssh command, and on success hands back the
closeProxy handle; each launch failure cancels the child context and
returns a nil closer with a wrapped error. -/
def runSocksProxyWithOptions (env : ProxyEnv) (host : String) (port : Int)
    (opts : Options) : RunResult :=
  let _cmd := createSSHCommand host port opts
  match env.stdoutPipeErr with
  | some e => { closer := none, err := some ("could not get stdout: " ++ e), processStarted := false }
  | none =>
    match env.stderrPipeErr with
    | some e => { closer := none, err := some ("could not get stderr: " ++ e), processStarted := false }
    | none =>
      match env.startErr with
      | some e => { closer := none, err := some ("could not start SOCKS5 proxy: " ++ e), processStarted := false }
      | none => { closer := some (), err := none, processStarted := true }

/-- runSocksProxy from pkg/ssh/proxy.go: runSocksProxyWithOptions with
DefaultOptions. -/
def runSocksProxy (env : ProxyEnv) (host : String) (port : Int) : RunResult :=
  runSocksProxyWithOptions env host port DefaultOptions

/-- Result of NewProxyDialer: the SOCKS5 dialer and ProxyCloser (modelled
by their presence), the returned error, and the tunnel side effects. -/
structure DialResult where
  dialer : Option Unit
  closer : Option Unit
  err : Option String
  state : TunnelState
deriving DecidableEq, Repr

/-- NewProxyDialer from pkg/ssh/proxy.go.  Empty proxyHost returns the
triple of nils.  Otherwise: allocate a port; start the tunnel (invoking
the returned closer, when non-nil, before propagating a start error);
probe readiness with backoff (the probe-failure branch returns the error
directly); construct the SOCKS5 dialer (closing the tunnel on failure). -/
def NewProxyDialer (env : ProxyEnv) (proxyHost : String) : DialResult :=
  if proxyHost = "" then
    { dialer := none, closer := none, err := none
    , state := { processStarted := false, closeInvoked := false, processRunning := false } }
  else
    match env.findPortOutcome with
    | .error e =>
      { dialer := none, closer := none
      , err := some ("failed to find available port: " ++ e)
      , state := { processStarted := false, closeInvoked := false, processRunning := false } }
    | .ok port =>
      let r := runSocksProxy env proxyHost port
      match r.err with
      | some e =>
        -- if closeProxy != nil { closeProxy() }
        let closed := r.closer.isSome
        { dialer := none, closer := none
        , err := some ("failed to start SOCKS5 proxy: " ++ e)
        , state := { processStarted := r.processStarted, closeInvoked := closed
                   , processRunning := runningAfter r.processStarted closed env.ctxCanceled } }
      | none =>
        match env.probeErr with
        | some e =>
          -- return nil, nil, fmt.Errorf("SOCKS5 proxy not available: %w", err)
          -- (no closeProxy invocation on this branch)
          { dialer := none, closer := none
          , err := some ("SOCKS5 proxy not available: " ++ e)
          , state := { processStarted := r.processStarted, closeInvoked := false
                     , processRunning := runningAfter r.processStarted false env.ctxCanceled } }
        | none =>
          match env.socks5Err with
          | some e =>
            -- if closeProxy != nil { closeProxy() }
            let closed := r.closer.isSome
            { dialer := none, closer := none
            , err := some ("failed to create SOCKS5 dialer: " ++ e)
            , state := { processStarted := r.processStarted, closeInvoked := closed
                       , processRunning := runningAfter r.processStarted closed env.ctxCanceled } }
          | none =>
            { dialer := some (), closer := r.closer, err := none
            , state := { processStarted := r.processStarted, closeInvoked := false
                       , processRunning := runningAfter r.processStarted false env.ctxCanceled } }

/-- Severity of a log call (the slog levels the monitor uses). -/
inductive LogLevel where
  | debug
  | error
deriving DecidableEq, Repr

/-- A single log record: severity and message. -/
structure LogEntry where
  level : LogLevel
  msg : String
deriving DecidableEq, Repr

/-- What context.Cause(ctx) yields when the monitor goroutine observes the
subprocess exit: the ErrGracefulShutdown sentinel (set by closeProxy via
cancel), some other cause (parent cancellation, context.Canceled, ...), or
nil when the context was never canceled (the process died on its own). -/
inductive ExitCause where
  | graceful
  | abnormal (e : String)
  | notCanceled
deriving DecidableEq, Repr

/-- errors.Is(cause, ErrGracefulShutdown): the cause is the graceful
shutdown sentinel. -/
def isGracefulCause : ExitCause → Bool
  | .graceful => true
  | .abnormal _ => false
  | .notCanceled => false

/-- Body of the monitorSSHProcess goroutine (pkg/ssh/proxy.go) after
cmd.Wait returns: on a non-nil exit error whose cancellation cause is not
ErrGracefulShutdown it logs at error level and returns; every other case
falls through to the debug message. -/
def monitorExitLog (exitErr : Option String) (cause : ExitCause) : LogEntry :=
  match exitErr with
  | some e =>
    if !(isGracefulCause cause) then
      { level := .error, msg := "SOCKS5 proxy exited with an error: " ++ e }
    else
      { level := .debug, msg := "SOCKS5 proxy exited" }
  | none => { level := .debug, msg := "SOCKS5 proxy exited" }

/-- Events in the close-triggered shutdown of one running tunnel
(pkg/ssh/proxy.go): the closer invokes cancel(ErrGracefulShutdown) and
then receives from the done channel; the context kills the subprocess;
the monitor goroutine returns from cmd.Wait and closes done; each drain
goroutine sees its stream reach end of input (possible only after the
process has exited) and then finishes. -/
inductive TEvent where
  | cancelReq
  | procExit
  | waitRet
  | doneClose
  | doneRecv
  | closeRet
  | stdoutAtEnd
  | stdoutDrained
  | stderrAtEnd
  | stderrDrained
deriving DecidableEq, Repr

/-- Position of an event in a trace. -/
def epos (t : List TEvent) (e : TEvent) : Nat := t.indexOf e

/-- A trace is a valid interleaving of the close-triggered shutdown when
every event happens exactly once and the program order of each goroutine,
the channel synchronization (a receive from done completes only after
done is closed), and the process semantics (Wait returns and the output
streams end only after the process exits, which the canceled context
triggers) are respected.  No constraint orders the drain goroutines
against the closer: the code joins only the done channel. -/
def validCloseTrace (t : List TEvent) : Prop :=
  t.count .cancelReq = 1 ∧ t.count .procExit = 1 ∧ t.count .waitRet = 1 ∧
  t.count .doneClose = 1 ∧ t.count .doneRecv = 1 ∧ t.count .closeRet = 1 ∧
  t.count .stdoutAtEnd = 1 ∧ t.count .stdoutDrained = 1 ∧
  t.count .stderrAtEnd = 1 ∧ t.count .stderrDrained = 1 ∧
  -- closer program order: cancel(ErrGracefulShutdown); <-done; return
  epos t .cancelReq < epos t .doneRecv ∧ epos t .doneRecv < epos t .closeRet ∧
  -- monitor program order: cmd.Wait returns; close(done)
  epos t .waitRet < epos t .doneClose ∧
  -- drain goroutines: the stream ends, then the scan loop finishes
  epos t .stdoutAtEnd < epos t .stdoutDrained ∧
  epos t .stderrAtEnd < epos t .stderrDrained ∧
  -- channel: receiving from done completes only after close(done)
  epos t .doneClose < epos t .doneRecv ∧
  -- process: killed after the cancel; Wait and stream end follow exit
  epos t .cancelReq < epos t .procExit ∧
  epos t .procExit < epos t .waitRet ∧
  epos t .procExit < epos t .stdoutAtEnd ∧
  epos t .procExit < epos t .stderrAtEnd

instance decValidCloseTrace (t : List TEvent) : Decidable (validCloseTrace t) := by
  unfold validCloseTrace
  infer_instance

/-- A fully sequential shutdown interleaving (used as a witness). -/
def orderlyCloseTrace : List TEvent :=
  [.cancelReq, .procExit, .waitRet, .stdoutAtEnd, .stdoutDrained,
   .stderrAtEnd, .stderrDrained, .doneClose, .doneRecv, .closeRet]

/-- A valid interleaving in which the closer returns while both drain
goroutines are still running: nothing in the code joins them. -/
def closeRaceTrace : List TEvent :=
  [.cancelReq, .procExit, .waitRet, .doneClose, .doneRecv, .closeRet,
   .stdoutAtEnd, .stdoutDrained, .stderrAtEnd, .stderrDrained]

end SSH

namespace BMC

/-- JSON values as Go encoding/json unmarshals them into map[string]any:
objects are finite key/value association lists (Go maps carry no
duplicate keys, and key order is not significant). -/
inductive Json where
  | null
  | bool (b : Bool)
  | num (n : Int)
  | str (s : String)
  | arr (elems : List Json)
  | obj (fields : List (String × Json))
deriving Repr

/-- Lookup of a top-level key in an object field list (map indexing). -/
def lookupField : List (String × Json) → String → Option Json
  | [], _ => none
  | (k, v) :: rest, key => if k = key then some v else lookupField rest key

/-- Go map assignment m[key] = v on a field list: replace the binding if
the key is present, insert it otherwise. -/
def setField : List (String × Json) → String → Json → List (String × Json)
  | [], key, v => [(key, v)]
  | (k, w) :: rest, key, v =>
    if k = key then (k, v) :: rest else (k, w) :: setField rest key v

/-- The synthesized Sessions link object for a SessionService id p. -/
def sessionsLinkObj (p : String) : Json :=
  .obj [("@odata.id", .str (p ++ "/Sessions"))]

/-- Whether the document fields already carry a Links object containing a
Sessions entry. -/
def hasSessionsLink (fields : List (String × Json)) : Bool :=
  match lookupField fields "Links" with
  | some (.obj lf) => (lookupField lf "Sessions").isSome
  | _ => false

/-- The existing Links object of the document, or the empty object when
Links is absent or not an object (the Go type assertion with a fresh map
as fallback). -/
def linksObjectOf (fields : List (String × Json)) : List (String × Json) :=
  match lookupField fields "Links" with
  | some (.obj lf) => lf
  | _ => []

/-- Modelled from the spec: the document-level patch performed by
patchMissingSessionsLink (bmc package; the implementation file is absent
from the sources, only its tests and the spec describe it).  If the
document is an object whose SessionService entry is an object with a
string @odata.id p, and no Links.Sessions entry exists, merge
Sessions = obj with @odata.id p/Sessions into the Links object (creating
Links when absent or not an object) without disturbing any other key;
otherwise return the document unchanged. -/
def patchDocument (j : Json) : Json :=
  match j with
  | .obj fields =>
    match lookupField fields "SessionService" with
    | some (.obj sf) =>
      match lookupField sf "@odata.id" with
      | some (.str p) =>
        if hasSessionsLink fields then j
        else
          .obj (setField fields "Links"
            (.obj (linksObjectOf fields ++ [("Sessions", sessionsLinkObj p)])))
      | _ => j
    | _ => j
  | _ => j

/-- Modelled from the spec: the raw response bytes handed to the patch
step.  Go encoding/json either unmarshals them into a document or fails;
the model carries the parse outcome with the bytes, abstracting the
parser (an external library). -/
inductive BodyBytes where
  | wellFormed (doc : Json)
  | malformed (raw : String)
deriving Repr

/-- Modelled from the spec: patchMissingSessionsLink (bmc package;
implementation file absent from the sources).  On bytes that unmarshal,
it returns the re-serialized patched document and no error; on bytes
that fail to unmarshal, it returns the original bytes unchanged together
with the decode error. -/
def patchMissingSessionsLink : BodyBytes → BodyBytes × Option String
  | .wellFormed doc => (.wellFormed (patchDocument doc), none)
  | .malformed raw => (.malformed raw, some "failed to unmarshal service root")

/-- The root discovery resource path the transport patches. -/
def serviceRootPath : String := "/redfish/v1/"

/-- An HTTP response as the patching transport observes it. -/
structure HTTPResponse where
  statusCode : Int
  body : BodyBytes
deriving Repr

/-- Modelled from the spec: patchServiceRoot (bmc package; implementation
file absent from the sources).  Applied only to GET requests of the exact
service-root path with a 2xx status; it replaces the body with the patch
output (which is the original bytes whenever decoding failed, so the
response body is never dropped) and surfaces the patch error.  All other
requests pass through untouched. -/
def patchServiceRoot (method path : String) (resp : HTTPResponse) :
    HTTPResponse × Option String :=
  if method = "GET" ∧ path = serviceRootPath ∧
      200 ≤ resp.statusCode ∧ resp.statusCode < 300 then
    let out := patchMissingSessionsLink resp.body
    ({ statusCode := resp.statusCode, body := out.1 }, out.2)
  else
    (resp, none)

/-- The TLS settings of the base transport that the tests inspect. -/
structure TLSClientConfig where
  insecureSkipVerify : Bool
deriving DecidableEq, Repr

/-- The fields of the base http.Transport that the code and tests
observe: the optional TLS configuration and whether DialContext routes
connections through a supplied proxy dialer. -/
structure BaseTransport where
  tlsClientConfig : Option TLSClientConfig
  dialsViaProxy : Bool
deriving DecidableEq, Repr

/-- modifierTransport: wraps exactly one underlying transport. -/
structure ModifierTransport where
  original : BaseTransport
deriving DecidableEq, Repr

/-- An HTTP client whose transport is the patching decorator. -/
structure HTTPClient where
  transport : ModifierTransport
deriving DecidableEq, Repr

/-- Modelled from the spec: newHTTPClient (bmc package; implementation
file absent from the sources).  Builds a client whose transport is the
modifierTransport wrapping a base transport with certificate
verification disabled only when insecureTLS is true (verification
enabled by default) and with connections routed through the dialer when
one is supplied.  Construction itself does not fail. -/
def newHTTPClient (insecureTLS : Bool) (dialer : Option Unit) :
    Except String HTTPClient :=
  .ok { transport := { original :=
    { tlsClientConfig :=
        if insecureTLS then some { insecureSkipVerify := true } else none
    , dialsViaProxy := dialer.isSome } } }

/-- Certificate verification is disabled exactly when a TLS configuration
is present with InsecureSkipVerify set. -/
def verificationDisabled (c : HTTPClient) : Bool :=
  match c.transport.original.tlsClientConfig with
  | some cfg => cfg.insecureSkipVerify
  | none => false

/-- Outcome of calling a Go function or computation that can panic. -/
inductive Panics (α : Type) where
  | ok (val : α)
  | panicked (msg : String)
deriving Repr

/-- The Go runtime panic message for calling through a nil pointer. -/
def nilPointerPanic : String :=
  "runtime error: invalid memory address or nil pointer dereference"

/-- Calling a Go function value: a nil func value panics. -/
def callProxyCloser : Option Unit → Panics Unit
  | none => .panicked nilPointerPanic
  | some _ => .ok ()

/-- The fields of bmc.Client (client.go): each is a pointer or func value
that may be nil, modelled by whether it is set. -/
structure Client where
  hasCloseProxy : Bool
  hasGofish : Bool
  hasLogger : Bool
deriving DecidableEq, Repr

/-- Outcomes of the effectful steps inside bmc.NewClient beyond the proxy
dialer: the newHTTPClient call and gofish.ConnectContext. -/
structure ClientEnv where
  proxyEnv : SSH.ProxyEnv
  httpClientErr : Option String
  connectErr : Option String
deriving Repr

/-- bmc.NewClient (client.go): builds the proxy dialer, the HTTP client,
and the gofish connection; on each failure it invokes closeProxy()
unconditionally (without a nil check) and returns a wrapped error. -/
def NewClient (env : ClientEnv) (sshProxy : String) :
    Panics (Except String Client) :=
  let d := SSH.NewProxyDialer env.proxyEnv sshProxy
  match d.err with
  | some e =>
    -- closeProxy(); return nil, fmt.Errorf("failed to create SSH proxy dialer: %w", err)
    match callProxyCloser d.closer with
    | .panicked m => .panicked m
    | .ok _ => .ok (.error ("failed to create SSH proxy dialer: " ++ e))
  | none =>
    match env.httpClientErr with
    | some e =>
      match callProxyCloser d.closer with
      | .panicked m => .panicked m
      | .ok _ => .ok (.error ("failed to create HTTP client: " ++ e))
    | none =>
      match env.connectErr with
      | some e =>
        match callProxyCloser d.closer with
        | .panicked m => .panicked m
        | .ok _ => .ok (.error ("failed to connect to BMC: " ++ e))
      | none =>
        .ok (.ok { hasCloseProxy := d.closer.isSome
                 , hasGofish := true, hasLogger := true })

/-- Client.Close (client.go): logs out, logs the disconnect, and invokes
the proxy closer, each guarded by a nil check; returns the actions
performed.  The only func-value call, closeProxy, happens only when the
field is non-nil. -/
def CloseClient (c : Client) : Panics (List String) :=
  let acts :=
    (if c.hasGofish then ["gofish.Logout"] else []) ++
    (if c.hasLogger then ["debug: BMC disconnected"] else [])
  if c.hasCloseProxy then
    match callProxyCloser (some ()) with
    | .panicked m => .panicked m
    | .ok _ => .ok (acts ++ ["closeProxy"])
  else
    .ok acts

end BMC

end Bmctl

namespace Bmctl

namespace SSH

/-- A probe-failure run: the port is allocated, both pipes and the process
start succeed, but the readiness probe (backoff.Retry of the local dial)
fails while the caller's context is still alive — for instance because
the retries exhausted their maximum elapsed time. -/
def probeFailEnv : ProxyEnv :=
  { findPortOutcome := .ok 45117
  , stdoutPipeErr := none
  , stderrPipeErr := none
  , startErr := none
  , probeErr := some "retries exceeded"
  , socks5Err := none
  , ctxCanceled := false }

/-- Claim C1 (failing input): when the tunnel subprocess starts but the
readiness probe then fails, NewProxyDialer returns a non-nil error
without ever invoking the tunnel close operation, and the subprocess is
still running when the error is returned — contradicting the claimed
postcondition that the tunnel is closed before the error is returned and
no subprocess remains running. -/
theorem newProxyDialer_probe_failure_leaves_tunnel_open :
    (NewProxyDialer probeFailEnv "bastion.example.com").err =
      some "SOCKS5 proxy not available: retries exceeded" ∧
    (NewProxyDialer probeFailEnv "bastion.example.com").state.closeInvoked = false ∧
    (NewProxyDialer probeFailEnv "bastion.example.com").state.processRunning = true := by
  refine ⟨rfl, rfl, rfl⟩

/-- Claim C8: for every environment, NewProxyDialer with an empty proxy
host returns exactly (nil, nil, nil): never an error, never a non-nil
dialer, never a non-nil closer. -/
theorem newProxyDialer_empty_host_returns_nils (env : ProxyEnv) :
    (NewProxyDialer env "").dialer = none ∧
    (NewProxyDialer env "").closer = none ∧
    (NewProxyDialer env "").err = none := by
  refine ⟨?_, ?_, ?_⟩ <;> simp [NewProxyDialer]

/-- Claim C9: for every host, port, and keep-alive options, the tunnel
subprocess command is exactly ssh with the argument list -N -o
ExitOnForwardFailure=yes -o ServerAliveInterval=N -o
ServerAliveCountMax=M -D port host, in that order. -/
theorem createSSHCommand_exact_args (host : String) (port : Int) (opts : Options) :
    (createSSHCommand host port opts).name = "ssh" ∧
    (createSSHCommand host port opts).args =
      [ "ssh", "-N"
      , "-o", "ExitOnForwardFailure=yes"
      , "-o", "ServerAliveInterval=" ++ toString opts.serverAliveInterval
      , "-o", "ServerAliveCountMax=" ++ toString opts.serverAliveCountMax
      , "-D", toString port
      , host ] :=
  ⟨rfl, rfl⟩

/-- Claim C10: for every environment, host, port and options, the
ProxyCloser returned by runSocksProxyWithOptions (and hence by
runSocksProxy) is non-nil exactly when the returned error is nil. -/
theorem runSocksProxy_closer_iff_no_error (env : ProxyEnv) (host : String)
    (port : Int) (opts : Options) :
    (runSocksProxyWithOptions env host port opts).closer.isSome =
      (runSocksProxyWithOptions env host port opts).err.isNone ∧
    (runSocksProxy env host port).closer.isSome =
      (runSocksProxy env host port).err.isNone := by
  rcases env with ⟨fp, so, se, st, pr, sk, cx⟩
  cases so <;> cases se <;> cases st <;>
    simp [runSocksProxy, runSocksProxyWithOptions]

/-- Claim C7: for every observed subprocess exit, a non-nil exit error
whose cancellation cause is not the graceful-shutdown sentinel is logged
at error level as an unexpected failure, while a graceful-shutdown cause
always yields only the debug message, regardless of the exit error. -/
theorem monitor_exit_log_severity (exitErr : Option String) (cause : ExitCause) :
    (∀ e, exitErr = some e → isGracefulCause cause = false →
      monitorExitLog exitErr cause =
        { level := LogLevel.error
        , msg := "SOCKS5 proxy exited with an error: " ++ e }) ∧
    (isGracefulCause cause = true →
      monitorExitLog exitErr cause =
        { level := LogLevel.debug, msg := "SOCKS5 proxy exited" }) := by
  constructor
  · rintro e rfl hns
    simp [monitorExitLog, hns]
  · intro hg
    cases exitErr <;> simp [monitorExitLog, hg]

/-- Claim C7 witness: a non-zero ssh exit logs at error level when the
cause was an ordinary cancellation, and at debug level when the cause
was the graceful-shutdown sentinel. -/
theorem monitor_exit_log_severity_witness :
    monitorExitLog (some "exit status 255") (ExitCause.abnormal "context canceled") =
      { level := LogLevel.error
      , msg := "SOCKS5 proxy exited with an error: exit status 255" } ∧
    monitorExitLog (some "exit status 255") ExitCause.graceful =
      { level := LogLevel.debug, msg := "SOCKS5 proxy exited" } :=
  ⟨(monitor_exit_log_severity (some "exit status 255")
      (ExitCause.abnormal "context canceled")).1 "exit status 255" rfl rfl,
   (monitor_exit_log_severity (some "exit status 255") ExitCause.graceful).2 rfl⟩

/-- Claim C6 (counterexample): it is not the case that every valid
shutdown interleaving finishes both output-drain goroutines before the
close operation returns; closeRaceTrace is a valid interleaving in which
the closer returns while both drains are still pending. -/
theorem close_returns_before_drain_counterexample :
    ¬ (∀ t, validCloseTrace t →
        epos t TEvent.stdoutDrained < epos t TEvent.closeRet ∧
        epos t TEvent.stderrDrained < epos t TEvent.closeRet) := by
  intro h
  have hc := h closeRaceTrace (by decide)
  exact absurd hc.1 (by decide)

/-- Claim C6 (amended): in every valid shutdown interleaving the close
operation returns only after the subprocess has exited, cmd.Wait has
observed the termination, and the completion channel has been closed;
the drain goroutines terminate on their own when their streams end but
are not joined by close. -/
theorem close_waits_for_exit_observation (t : List TEvent)
    (h : validCloseTrace t) :
    epos t TEvent.procExit < epos t TEvent.closeRet ∧
    epos t TEvent.waitRet < epos t TEvent.closeRet ∧
    epos t TEvent.doneClose < epos t TEvent.closeRet := by
  obtain ⟨-, -, -, -, -, -, -, -, -, -,
    _hcr, hrc, hwd, _h4, _h5, hdr, _hcp, hpw, _h9, _h10⟩ := h
  have h1 : epos t TEvent.doneClose < epos t TEvent.closeRet := lt_trans hdr hrc
  have h2 : epos t TEvent.waitRet < epos t TEvent.closeRet := lt_trans hwd h1
  have h3 : epos t TEvent.procExit < epos t TEvent.closeRet := lt_trans hpw h2
  exact ⟨h3, h2, h1⟩

/-- Claim C6 witness: the fully sequential shutdown interleaving is valid
and the close operation returns after the process exit was observed. -/
theorem close_waits_for_exit_observation_witness :
    validCloseTrace orderlyCloseTrace ∧
    epos orderlyCloseTrace TEvent.procExit < epos orderlyCloseTrace TEvent.closeRet :=
  ⟨by decide, (close_waits_for_exit_observation orderlyCloseTrace (by decide)).1⟩

end SSH

namespace BMC

/-- An environment in which every tunnel step would succeed; used with an
empty proxy host, where none of them run. -/
def noProxyEnv : SSH.ProxyEnv :=
  { findPortOutcome := .ok 0
  , stdoutPipeErr := none
  , stderrPipeErr := none
  , startErr := none
  , probeErr := none
  , socks5Err := none
  , ctxCanceled := false }

/-- No proxy configured and gofish.ConnectContext fails (for instance an
unreachable endpoint). -/
def connectFailEnv : ClientEnv :=
  { proxyEnv := noProxyEnv
  , httpClientErr := none
  , connectErr := some "connection refused" }

/-- A proxy host is configured but the port allocation inside
NewProxyDialer fails, so the dialer construction returns an error with a
nil closer. -/
def dialerFailEnv : ClientEnv :=
  { proxyEnv :=
    { findPortOutcome := .error "address already in use"
    , stdoutPipeErr := none
    , stderrPipeErr := none
    , startErr := none
    , probeErr := none
    , socks5Err := none
    , ctxCanceled := false }
  , httpClientErr := none
  , connectErr := none }

/-- Claim C2 (failing inputs): NewClient panics with a nil pointer
dereference instead of returning a descriptive error whenever an error
path runs while closeProxy is nil — both when no proxy is configured and
the connection fails, and when the proxy dialer construction itself
fails (NewProxyDialer returns a nil closer on every error).  Client.Close
itself never panics on partially-initialized state: every field access
is nil-guarded. -/
theorem newClient_nil_closer_panics :
    NewClient connectFailEnv "" = Panics.panicked nilPointerPanic ∧
    NewClient dialerFailEnv "bastion.example.com" = Panics.panicked nilPointerPanic ∧
    ∀ c : Client, ∃ acts, CloseClient c = Panics.ok acts := by
  refine ⟨rfl, rfl, ?_⟩
  intro c
  cases hc : c.hasCloseProxy <;>
    simp [CloseClient, callProxyCloser, hc]

/-- Claim C3: the HTTP client constructed by newHTTPClient has certificate
verification disabled exactly when insecureTLS is true: never disabled
for insecureTLS false, disabled for insecureTLS true. -/
theorem newHTTPClient_tls_verification (insecureTLS : Bool) (dialer : Option Unit)
    (c : HTTPClient) (h : newHTTPClient insecureTLS dialer = .ok c) :
    verificationDisabled c = insecureTLS := by
  simp only [newHTTPClient, Except.ok.injEq] at h
  subst h
  cases insecureTLS <;> rfl

/-- Claim C3 witness: concrete clients for both flag values. -/
theorem newHTTPClient_tls_verification_witness :
    verificationDisabled
      { transport := { original :=
        { tlsClientConfig := some { insecureSkipVerify := true }
        , dialsViaProxy := false } } } = true ∧
    verificationDisabled
      { transport := { original :=
        { tlsClientConfig := none, dialsViaProxy := false } } } = false :=
  ⟨newHTTPClient_tls_verification true none _ rfl,
   newHTTPClient_tls_verification false none _ rfl⟩

theorem lookupField_setField_self (fs : List (String × Json)) (k : String) (v : Json) :
    lookupField (setField fs k v) k = some v := by
  induction fs with
  | nil => simp [setField, lookupField]
  | cons hd tl ih =>
    obtain ⟨a, b⟩ := hd
    by_cases hak : a = k
    · subst hak
      simp [setField, lookupField]
    · simp [setField, lookupField, hak, ih]

theorem lookupField_setField_ne (fs : List (String × Json)) (k key : String)
    (v : Json) (h : k ≠ key) :
    lookupField (setField fs key v) k = lookupField fs k := by
  induction fs with
  | nil => simp [setField, lookupField, Ne.symm h]
  | cons hd tl ih =>
    obtain ⟨a, b⟩ := hd
    by_cases hak : a = key
    · subst hak
      simp [setField, lookupField, Ne.symm h]
    · simp [setField, lookupField, hak, ih]

theorem lookupField_append_of_none (xs ys : List (String × Json)) (k : String)
    (h : lookupField xs k = none) :
    lookupField (xs ++ ys) k = lookupField ys k := by
  induction xs with
  | nil => simp [lookupField]
  | cons hd tl ih =>
    obtain ⟨a, b⟩ := hd
    by_cases hak : a = k
    · simp [lookupField, hak] at h
    · simp [lookupField, hak] at h ⊢
      exact ih h

theorem linksObjectOf_no_sessions (fields : List (String × Json))
    (hno : hasSessionsLink fields = false) :
    lookupField (linksObjectOf fields) "Sessions" = none := by
  unfold hasSessionsLink at hno
  unfold linksObjectOf
  cases hL : lookupField fields "Links" with
  | none => simp [lookupField]
  | some lv =>
    cases lv <;> simp_all [lookupField]

/-- Claim C4: given a document whose SessionService entry is an object
with string @odata.id p and which lacks a Links.Sessions entry, the
patched document carries Links.Sessions with @odata.id p/Sessions and
every other top-level key is preserved unchanged. -/
theorem patchDocument_adds_sessions_link
    (fields sf : List (String × Json)) (p : String)
    (hss : lookupField fields "SessionService" = some (.obj sf))
    (hid : lookupField sf "@odata.id" = some (.str p))
    (hno : hasSessionsLink fields = false) :
    ∃ out, patchDocument (.obj fields) = .obj out ∧
      (∃ lf, lookupField out "Links" = some (.obj lf) ∧
        lookupField lf "Sessions" =
          some (.obj [("@odata.id", .str (p ++ "/Sessions"))])) ∧
      ∀ k, k ≠ "Links" → lookupField out k = lookupField fields k := by
  refine ⟨setField fields "Links"
      (.obj (linksObjectOf fields ++ [("Sessions", sessionsLinkObj p)])), ?_, ?_, ?_⟩
  · simp [patchDocument, hss, hid, hno]
  · refine ⟨linksObjectOf fields ++ [("Sessions", sessionsLinkObj p)],
      lookupField_setField_self _ _ _, ?_⟩
    rw [lookupField_append_of_none _ _ _ (linksObjectOf_no_sessions _ hno)]
    simp [lookupField, sessionsLinkObj]
  · intro k hk
    exact lookupField_setField_ne _ _ _ _ hk

/-- The service-root document of the tests: AccountService and
SessionService present, no Links. -/
def serviceRootFieldsMissingSessions : List (String × Json) :=
  [ ("AccountService", .obj [("@odata.id", .str "/redfish/v1/AccountService")])
  , ("SessionService", .obj [("@odata.id", .str "/redfish/v1/SessionService")]) ]

/-- Claim C4 witness: the patch applied to the concrete test document. -/
theorem patchDocument_adds_sessions_link_witness :
    hasSessionsLink serviceRootFieldsMissingSessions = false ∧
    ∃ out, patchDocument (.obj serviceRootFieldsMissingSessions) = .obj out ∧
      (∃ lf, lookupField out "Links" = some (.obj lf) ∧
        lookupField lf "Sessions" =
          some (.obj [("@odata.id", .str ("/redfish/v1/SessionService" ++ "/Sessions"))])) ∧
      ∀ k, k ≠ "Links" →
        lookupField out k = lookupField serviceRootFieldsMissingSessions k :=
  ⟨rfl, patchDocument_adds_sessions_link serviceRootFieldsMissingSessions
    [("@odata.id", .str "/redfish/v1/SessionService")] "/redfish/v1/SessionService"
    rfl rfl rfl⟩

/-- Claim C5: for every byte sequence that fails to unmarshal, the patch
step returns a non-nil error together with the original bytes unchanged,
and the response-patching transport still passes the original body
downstream rather than dropping it. -/
theorem patch_invalid_json_preserves_bytes (raw : String) :
    patchMissingSessionsLink (BodyBytes.malformed raw) =
      (BodyBytes.malformed raw, some "failed to unmarshal service root") ∧
    (patchServiceRoot "GET" serviceRootPath
        { statusCode := 200, body := BodyBytes.malformed raw }).1.body =
      BodyBytes.malformed raw ∧
    (patchServiceRoot "GET" serviceRootPath
        { statusCode := 200, body := BodyBytes.malformed raw }).2.isSome = true := by
  refine ⟨rfl, ?_, ?_⟩ <;>
    simp [patchServiceRoot, serviceRootPath, patchMissingSessionsLink]

end BMC

end Bmctl
